import Mathlib

/-!
Verification development for the distributed mobile-money simulator
(2PC transfer protocol, CP/AP consistency strategies, partition simulation).

The definitions below are a shallow embedding of the Python sources:
  src/models/node.py, src/models/transaction.py,
  src/simulation/network_simulator.py, src/simulation/partition_simulator.py,
  src/services/transfer_service.py, src/services/balance_service.py,
  src/services/history_service.py, src/services/payment_service.py,
  src/strategies/pure_cp_strategy.py, src/strategies/adaptive_strategy.py,
  src/config/network_config.py.

Modelling conventions:
  * money amounts and wall-clock instants are rationals (Python floats carry
    no rounding-relevant arithmetic here: only +, -, comparisons are used);
  * Python dicts become association lists ("alookup" / "alset" / "alerase")
    preserving dict insertion-order semantics (update in place, append new);
  * randomness (packet-loss draws, jitter draws, provider-success draws,
    hash values, generated receipt ids) is supplied by an "Oracle" of
    streams indexed by per-purpose counters threaded through "Env";
  * "time.sleep" advances an explicit clock in "Env" (seconds);
  * a Python "raise"/"except" pair is modelled by an explicit error value
    carried in the step's output (mutations made before the raise are kept,
    as in Python, since objects are mutated in place);
  * "self.latencies = NetworkConfig.LATENCIES[mode]" aliases the class-level
    table, so the network state stores the mode tables and every read/write
    of "self.latencies" goes through the current mode's table.
-/

/-- Association list lookup (Python "dict.get"). -/
def alookup {κ α : Type} [DecidableEq κ] : List (κ × α) → κ → Option α
  | [], _ => none
  | (k', v) :: t, k => if k' = k then some v else alookup t k

/-- Association list update (Python "d[k] = v": replace in place, else append). -/
def alset {κ α : Type} [DecidableEq κ] : List (κ × α) → κ → α → List (κ × α)
  | [], k, v => [(k, v)]
  | (k', v') :: t, k, v => if k' = k then (k, v) :: t else (k', v') :: alset t k v

/-- Association list deletion (Python "del d[k]"). -/
def alerase {κ α : Type} [DecidableEq κ] : List (κ × α) → κ → List (κ × α)
  | [], _ => []
  | (k', v') :: t, k => if k' = k then t else (k', v') :: alerase t k

theorem alookup_alset_same {κ α : Type} [DecidableEq κ] (l : List (κ × α)) (k : κ) (v : α) :
    alookup (alset l k v) k = some v := by
  induction l with
  | nil => simp [alset, alookup]
  | cons p t ih =>
    by_cases h : p.1 = k
    · simp [alset, alookup, h]
    · simp [alset, alookup, h, ih]

theorem alookup_alset_other {κ α : Type} [DecidableEq κ] (l : List (κ × α)) (k k' : κ) (v : α)
    (h : k ≠ k') : alookup (alset l k v) k' = alookup l k' := by
  induction l with
  | nil => simp [alset, alookup, h]
  | cons p t ih =>
    by_cases hp : p.1 = k
    · simp [alset, alookup, hp, h]
    · simp [alset, alookup, hp, ih]

/-- Latency values: finite milliseconds, or infinity (Python float('inf')). -/
inductive Latency where
  | fin (q : ℚ)
  | inf
deriving DecidableEq

/-- Node roles (src/models/node.py NodeRole). -/
inductive NodeRole where
  | master
  | replica_rw
  | replica_ro
  | replica_analytics
deriving DecidableEq

/-- Node health states (src/models/node.py NodeState). -/
inductive NodeState where
  | healthy
  | degraded
  | isolated
  | down
deriving DecidableEq

/-- Transaction kinds (src/models/transaction.py TransactionType). -/
inductive TxType where
  | transfer
  | payment
  | deposit
  | withdrawal
deriving DecidableEq

/-- Transaction statuses (src/models/transaction.py TransactionStatus). -/
inductive TxStatus where
  | pending
  | prepared
  | committed
  | aborted
  | failed
deriving DecidableEq

/-- A transaction record (src/models/transaction.py Transaction).
Creation/completion timestamps and the currency tag are not carried: no
claim inspects them.  The metadata map is narrowed to the two keys the
sources ever set ("provider", "queued"). -/
structure Transaction where
  transaction_id : String
  typ : TxType
  from_user : String
  to_user : String
  amount : ℚ
  status : TxStatus := TxStatus.pending
  error_message : Option String := none
  meta_provider : Option String := none
  meta_queued : Bool := false
deriving DecidableEq

def Transaction.markPrepared (t : Transaction) : Transaction :=
  { t with status := TxStatus.prepared }

def Transaction.markCommitted (t : Transaction) : Transaction :=
  { t with status := TxStatus.committed }

def Transaction.markAborted (t : Transaction) (reason : String) : Transaction :=
  { t with status := TxStatus.aborted, error_message := some reason }

def Transaction.markFailed (t : Transaction) (err : String) : Transaction :=
  { t with status := TxStatus.failed, error_message := some err }

/-- An entry of a node's local transaction log: the record snapshot plus the
node id and timestamp stamped on by Node.add_transaction. -/
structure LogTx where
  tx : Transaction
  node_id : String
  timestamp : ℚ
deriving DecidableEq

/-- A cached value: node.cache holds balances (keys "balance:u") and
transaction histories (keys "history:u") in one dict. -/
inductive CacheValue where
  | bal (b : ℚ)
  | hist (l : List LogTx)
deriving DecidableEq

/-- A node / ledger (src/models/node.py Node).  The fields location,
last-latency metrics are descriptive only and are not carried. -/
structure Node where
  id : String
  name : String
  role : NodeRole
  state : NodeState
  accounts : List (String × ℚ)
  transactions : List LogTx
  cache : List (String × (CacheValue × ℚ))
  lastHeartbeat : ℚ
  requestCount : ℕ
  errorCount : ℕ
  canReach : List (String × Bool)
deriving DecidableEq

/-- Node.is_master. -/
def Node.isMaster (n : Node) : Bool := n.role = NodeRole.master

/-- Node.can_reach_master: a master always reaches itself; otherwise look up
the reachability map, defaulting to true. -/
def Node.canReachMaster (n : Node) (master : Node) : Bool :=
  if n.isMaster then true else (alookup n.canReach master.id).getD true

/-- Node.is_healthy at instant "now": heartbeat staleness over 3 seconds
forces the state to Isolated and reports false; otherwise healthy iff the
state is Healthy.  Returns the (possibly mutated) node. -/
def Node.isHealthy (n : Node) (now : ℚ) : Bool × Node :=
  if 3 < now - n.lastHeartbeat then
    (false, { n with state := NodeState.isolated })
  else
    (n.state = NodeState.healthy, n)

/-- Node._get_from_cache: expired entries are deleted lazily on read. -/
def Node.getFromCache (n : Node) (key : String) (now : ℚ) : Option CacheValue × Node :=
  match alookup n.cache key with
  | some (v, expiry) =>
    if now < expiry then (some v, n)
    else (none, { n with cache := alerase n.cache key })
  | none => (none, n)

/-- Node._set_cache: expiry = now + ttl. -/
def Node.setCache (n : Node) (key : String) (v : CacheValue) (ttl now : ℚ) : Node :=
  { n with cache := alset n.cache key (v, now + ttl) }

/-- Node._invalidate_cache. -/
def Node.invalidateCache (n : Node) (key : String) : Node :=
  { n with cache := alerase n.cache key }

/-- Node.get_balance: bumps request_count; with from_cache, tries the cache
first (a "balance:u" key can only hold a CacheValue.bal by key discipline;
a hist value there would be returned raw by Python but is unreachable),
then falls back to the authoritative accounts map. -/
def Node.getBalance (n : Node) (user : String) (fromCache : Bool) (now : ℚ) :
    Option ℚ × Node :=
  let n0 : Node := { n with requestCount := n.requestCount + 1 }
  if fromCache then
    match n0.getFromCache ("balance:" ++ user) now with
    | (some (CacheValue.bal b), n1) => (some b, n1)
    | (some (CacheValue.hist _), n1) => (alookup n1.accounts user, n1)
    | (none, n1) => (alookup n1.accounts user, n1)
  else
    (alookup n0.accounts user, n0)

/-- Node.set_balance: write the accounts map, invalidate that user's
balance cache entry. -/
def Node.setBalance (n : Node) (user : String) (b : ℚ) : Node :=
  let n1 : Node := { n with accounts := alset n.accounts user b }
  n1.invalidateCache ("balance:" ++ user)

/-- Node.add_transaction: append the record with node id and timestamp. -/
def Node.addTransaction (n : Node) (t : Transaction) (now : ℚ) : Node :=
  { n with transactions := n.transactions ++ [⟨t, n.id, now⟩] }

/-- Node.get_transactions: bumps request_count; optional cache path, else
filters the local log by source or destination user. -/
def Node.getTransactions (n : Node) (user : String) (fromCache : Bool) (now : ℚ) :
    List LogTx × Node :=
  let n0 : Node := { n with requestCount := n.requestCount + 1 }
  if fromCache then
    match n0.getFromCache ("history:" ++ user) now with
    | (some (CacheValue.hist l), n1) => (l, n1)
    | (some (CacheValue.bal _), n1) =>
      (n1.transactions.filter (fun t => t.tx.from_user = user ∨ t.tx.to_user = user), n1)
    | (none, n1) =>
      (n1.transactions.filter (fun t => t.tx.from_user = user ∨ t.tx.to_user = user), n1)
  else
    (n0.transactions.filter (fun t => t.tx.from_user = user ∨ t.tx.to_user = user), n0)

/-- A latency table keyed by ordered endpoint pair
(src/config/network_config.py NetworkConfig.LATENCIES[mode]). -/
def LatTable : Type := List ((String × String) × Latency)

instance : DecidableEq LatTable := by
  unfold LatTable
  exact inferInstance

/-- NetworkConfig.LATENCIES['normal']. -/
def latenciesNormal : LatTable :=
  [(("DAKAR", "SAINT_LOUIS"), Latency.fin 50),
   (("DAKAR", "ZIGUINCHOR"), Latency.fin 150),
   (("SAINT_LOUIS", "ZIGUINCHOR"), Latency.fin 200)]

/-- NetworkConfig.LATENCIES['congested']. -/
def latenciesCongested : LatTable :=
  [(("DAKAR", "SAINT_LOUIS"), Latency.fin 200),
   (("DAKAR", "ZIGUINCHOR"), Latency.fin 600),
   (("SAINT_LOUIS", "ZIGUINCHOR"), Latency.fin 800)]

/-- NetworkConfig.LATENCIES['partitioned']. -/
def latenciesPartitioned : LatTable :=
  [(("DAKAR", "ZIGUINCHOR"), Latency.inf),
   (("DAKAR", "SAINT_LOUIS"), Latency.fin 50),
   (("SAINT_LOUIS", "ZIGUINCHOR"), Latency.inf)]

/-- NetworkConfig.LATENCIES. -/
def configLatencies : List (String × LatTable) :=
  [("normal", latenciesNormal),
   ("congested", latenciesCongested),
   ("partitioned", latenciesPartitioned)]

/-- NetworkConfig.PACKET_LOSS (percent). -/
def configPacketLoss : List (String × ℚ) :=
  [("normal", 1/10), ("congested", 5), ("partitioned", 100)]

/-- NetworkConfig.TIMEOUTS (milliseconds). -/
def configTimeouts : List (String × ℚ) :=
  [("transfer", 5000), ("payment", 10000), ("balance", 2000),
   ("history", 3000), ("heartbeat", 1000)]

/-- NetworkConfig.CACHE_TTL (seconds). -/
def configCacheTTL : List (String × ℚ) :=
  [("balance", 60), ("history", 300), ("profile", 3600)]

/-- One entry of the network communication log. -/
structure CommLog where
  timestamp : ℚ
  src : String
  dst : String
  typ : String
  succ : Bool
  latency_ms : ℚ
  error : Option String
deriving DecidableEq

/-- NetworkSimulator state.  Python's "self.latencies" aliases
"NetworkConfig.LATENCIES[self.mode]" (no copy), so reads and writes of
"self.latencies" are reads and writes of "tables[mode]"; "heal_partition"
reads "tables['normal']", which is the very same table when mode = normal. -/
structure NetSt where
  mode : String
  tables : List (String × LatTable)
  packetLoss : ℚ
  commLog : List CommLog
deriving DecidableEq

/-- A fresh NetworkSimulator in the given mode (the driver uses 'normal'). -/
def NetSt.init (mode : String) : NetSt :=
  { mode := mode, tables := configLatencies,
    packetLoss := (alookup configPacketLoss mode).getD 0, commLog := [] }

/-- The table "self.latencies" currently aliases. -/
def NetSt.cur (s : NetSt) : LatTable := (alookup s.tables s.mode).getD []

/-- Random draws of a simulation run.  Each stream is indexed by the
counter of the corresponding draw site: "loss" and "jitter" by the message
counter, "providerSucc" and "apiHash" by the provider-call counter.
"receiptId" supplies the uuid-generated receipt strings. -/
structure Oracle where
  loss : ℕ → ℚ
  jitter : ℕ → ℚ
  providerSucc : ℕ → ℚ
  apiHash : ℕ → ℕ
  receiptId : ℕ → String

/-- Mutable simulation environment: network state, wall clock (seconds),
message counter, provider-call counter. -/
structure Env where
  net : NetSt
  clock : ℚ
  msgK : ℕ
  provK : ℕ
deriving DecidableEq

/-- NetworkSimulator._get_latency: 0 for a same-node message, else look up
the ordered pair, then the flipped pair, defaulting to 100 ms. -/
def NetSt.baseLatency (s : NetSt) (a b : String) : Latency :=
  if a = b then Latency.fin 0
  else ((alookup s.cur (a, b)).orElse (fun _ => alookup s.cur (b, a))).getD (Latency.fin 100)

/-- NetworkSimulator.send_message.  The jitter draw happens first (inside
_get_latency), then the loss draw; a lost message returns none and logs a
failure.  A delivered message sleeps base*(1+jitter) clamped at 0 (an
infinite latency raises OverflowError in time.sleep, caught and replaced
by a 1 ms sleep) and logs a success.  The response payload is never
inspected by any caller beyond truthiness, so it is modelled as Unit. -/
def NetSt.sendMessage (or : Oracle) (env : Env) (src dst typ : String) :
    Option Unit × Env :=
  let base := env.net.baseLatency src dst
  let latencyMs : ℚ :=
    match base with
    | Latency.fin q => max 0 (q * (1 + or.jitter env.msgK))
    | Latency.inf => 1
  if or.loss env.msgK * 100 < env.net.packetLoss then
    (none,
     { env with
       msgK := env.msgK + 1,
       net := { env.net with
         commLog := env.net.commLog ++
           [⟨env.clock, src, dst, typ, false, 0, some "Packet lost"⟩] } })
  else
    let clock' := env.clock + latencyMs / 1000
    (some (),
     { env with
       clock := clock',
       msgK := env.msgK + 1,
       net := { env.net with
         commLog := env.net.commLog ++
           [⟨clock', src, dst, typ, true, latencyMs, none⟩] } })

/-- NetworkSimulator.simulate_partition: set both directions of the pair to
infinity in the table "self.latencies" aliases. -/
def NetSt.simulatePartition (s : NetSt) (a b : String) : NetSt :=
  let cur1 := alset (alset s.cur (a, b) Latency.inf) (b, a) Latency.inf
  { s with tables := alset s.tables s.mode cur1 }

/-- NetworkSimulator.heal_partition: restore each direction of the pair in
"self.latencies" from NetworkConfig.LATENCIES['normal'], but only if that
direction is a key of the normal table.  When mode = 'normal' the normal
table IS "self.latencies" (aliasing), so the values read back are the
post-partition ones. -/
def NetSt.healPartition (s : NetSt) (a b : String) : NetSt :=
  let normal := (alookup s.tables "normal").getD []
  let cur1 :=
    match alookup normal (a, b) with
    | some v => alset s.cur (a, b) v
    | none => s.cur
  let cur2 :=
    match alookup normal (b, a) with
    | some v => alset cur1 (b, a) v
    | none => cur1
  { s with tables := alset s.tables s.mode cur2 }

/-- PartitionSimulator.create_partition: partition the link and flip both
nodes' mutual reachability to false and their states to Isolated. -/
def PartitionSim.createPartition (env : Env) (n1 n2 : Node) : Env × Node × Node :=
  let env1 := { env with net := env.net.simulatePartition n1.id n2.id }
  let n1' : Node := { n1 with canReach := alset n1.canReach n2.id false,
                              state := NodeState.isolated }
  let n2' : Node := { n2 with canReach := alset n2.canReach n1.id false,
                              state := NodeState.isolated }
  (env1, n1', n2')

/-- PartitionSimulator.heal_partition: heal the link, flip mutual
reachability back to true and states to Healthy, then simulate the
resynchronization delay (time.sleep(0.5); no data is actually synced). -/
def PartitionSim.healPartition (env : Env) (n1 n2 : Node) : Env × Node × Node :=
  let env1 := { env with net := env.net.healPartition n1.id n2.id }
  let n1' : Node := { n1 with canReach := alset n1.canReach n2.id true,
                              state := NodeState.healthy }
  let n2' : Node := { n2 with canReach := alset n2.canReach n1.id true,
                              state := NodeState.healthy }
  let env2 := { env1 with clock := env1.clock + 1/2 }
  (env2, n1', n2')

/-- A structured operation result: the union of the keys of the result
dicts produced by the services and strategies.  Keys a given dict does not
carry are none. -/
structure ResultMap where
  success : Bool
  transaction_id : Option String := none
  error : Option String := none
  reason : Option String := none
  message : Option String := none
  status : Option String := none
  warning : Option String := none
  strategy : Option String := none
  source : Option String := none
  freshness : Option String := none
  partition_mode : Option Bool := none
  latency_ms : Option ℚ := none
  balance : Option ℚ := none
  new_balance : Option ℚ := none
  new_balance_from : Option ℚ := none
  new_balance_to : Option ℚ := none
  receipt_id : Option String := none
  transactions : Option (List LogTx) := none
  count : Option ℕ := none
deriving DecidableEq

/-- Python "x or default" on an Optional float: falls back on None AND on a
falsy stored value (0.0 is falsy). -/
def pyOrQ (x : Option ℚ) (default : ℚ) : ℚ :=
  match x with
  | none => default
  | some v => if v = 0 then default else v

/-- TransferService bookkeeping (pending map is written nowhere). -/
structure TransferSvc where
  pending : List (String × Transaction) := []
  committed : List (String × Transaction) := []
  aborted : List (String × Transaction) := []
deriving DecidableEq

/-- TransferService._abort_transaction: mark the record aborted, file it,
return the failure dict. -/
def abortTransaction (t : Transaction) (reason : String) (svc : TransferSvc) :
    ResultMap × TransferSvc × Transaction :=
  let t' := t.markAborted reason
  ({ success := false, transaction_id := some t.transaction_id, error := some reason },
   { svc with aborted := alset svc.aborted t.transaction_id t' }, t')

/-- TransferService._pre_checks: source balance present and at least the
amount, destination account present.  Reads through Node.get_balance (no
cache), so only request_count changes on the master. -/
def preChecks (t : Transaction) (master : Node) (now : ℚ) : Bool × Node :=
  match master.getBalance t.from_user false now with
  | (none, m1) => (false, m1)
  | (some b, m1) =>
    if b < t.amount then (false, m1)
    else
      let (tb, m2) := m1.getBalance t.to_user false now
      (tb.isSome, m2)

/-- TransferService._can_node_prepare: unhealthy nodes cannot prepare; the
master additionally re-checks its balance for the source user (a missing
balance would raise TypeError on the comparison, modelled as none);
replicas that pass the health check always can. -/
def canNodePrepare (now : ℚ) (n : Node) (t : Transaction) : Option Bool × Node :=
  match n.isHealthy now with
  | (false, n1) => (some false, n1)
  | (true, n1) =>
    if n1.isMaster then
      match n1.getBalance t.from_user false now with
      | (none, n2) => (none, n2)
      | (some b, n2) => (some (decide (t.amount ≤ b)), n2)
    else (some true, n1)

/-- Outcome of one iteration of the PREPARE loop body. -/
structure PrepStepRes where
  node : Node
  vote : Option String
  exc : Option String
  env : Env
deriving DecidableEq

/-- One iteration of the PREPARE loop (src/services/transfer_service.py
lines 124-145): send the prepare message; a lost message is a NO vote; on
delivery consult _can_node_prepare (whose TypeError propagates as exc). -/
def prepStep (or : Oracle) (masterId : String) (t : Transaction) (n : Node) (env : Env) :
    PrepStepRes :=
  let (resp, env1) := NetSt.sendMessage or env masterId n.id "prepare"
  match resp with
  | none => ⟨n, some "NO", none, env1⟩
  | some _ =>
    match canNodePrepare env1.clock n t with
    | (none, n') => ⟨n', none, some "unorderable types: NoneType and float", env1⟩
    | (some c, n') => ⟨n', some (if c then "YES" else "NO"), none, env1⟩

/-- A raised condition that ends the PREPARE loop early. -/
inductive PrepHalt where
  | timeout
  | exc (msg : String)
deriving DecidableEq

/-- Result of running the PREPARE loop over a list of participants. -/
structure PrepLoopRes where
  nodes : List Node
  votes : List (String × String)
  env : Env
  halt : Option PrepHalt
deriving DecidableEq

/-- The PREPARE loop: before each send, raise TimeoutError if the phase
deadline (TIMEOUTS['transfer'] / 1000 seconds) has passed; nodes after a
raise are left untouched. -/
def prepLoop (or : Oracle) (masterId : String) (t : Transaction) (startTime : ℚ) :
    List Node → Env → PrepLoopRes
  | [], env => ⟨[], [], env, none⟩
  | n :: ns, env =>
    if 5 < env.clock - startTime then ⟨n :: ns, [], env, some PrepHalt.timeout⟩
    else
      let st := prepStep or masterId t n env
      match st.exc with
      | some m => ⟨st.node :: ns, [], st.env, some (PrepHalt.exc m)⟩
      | none =>
        let rest := prepLoop or masterId t startTime ns st.env
        ⟨st.node :: rest.nodes, (n.id, st.vote.getD "NO") :: rest.votes, rest.env, rest.halt⟩

/-- Outcome of the whole PREPARE phase. -/
inductive PrepOutcome where
  | done (allYes : Bool)
  | timeout
  | exc (msg : String)
deriving DecidableEq

/-- Result of TransferService._prepare_phase. -/
structure PrepRes where
  master : Node
  replicas : List Node
  votes : List (String × String)
  outcome : PrepOutcome
  tx : Transaction
  env : Env
deriving DecidableEq

/-- TransferService._prepare_phase: iterate the loop over
participants = master :: replicas; on normal completion require a
unanimous YES vote, marking the record Prepared exactly then. -/
def preparePhase (or : Oracle) (t : Transaction) (master : Node) (replicas : List Node)
    (env : Env) : PrepRes :=
  let startTime := env.clock
  let lr := prepLoop or master.id t startTime (master :: replicas) env
  let master' := lr.nodes.headD master
  let replicas' := lr.nodes.tail
  match lr.halt with
  | some PrepHalt.timeout => ⟨master', replicas', lr.votes, PrepOutcome.timeout, t, lr.env⟩
  | some (PrepHalt.exc m) => ⟨master', replicas', lr.votes, PrepOutcome.exc m, t, lr.env⟩
  | none =>
    let ok := lr.votes.all (fun v => v.2 = "YES")
    ⟨master', replicas', lr.votes, PrepOutcome.done ok,
     if ok then t.markPrepared else t, lr.env⟩

/-- One iteration of the COMMIT replication loop (src/services/
transfer_service.py lines 203-228): on delivery, base each balance on the
replica's own stored value with Python "or" fallback to the master's
pre-commit balance (so a stored 0 also falls back), apply the delta, and
append the record. -/
def commitReplicaStep (or : Oracle) (t : Transaction) (masterId : String)
    (fromBalance toBalance : ℚ) (n : Node) (env : Env) : Node × Env :=
  let (resp, env1) := NetSt.sendMessage or env masterId n.id "commit"
  match resp with
  | none => (n, env1)
  | some _ =>
    let (fb, n1) := n.getBalance t.from_user false env1.clock
    let fromBal := pyOrQ fb fromBalance
    let (tb, n2) := n1.getBalance t.to_user false env1.clock
    let toBal := pyOrQ tb toBalance
    let n3 := (n2.setBalance t.from_user (fromBal - t.amount)).setBalance t.to_user
      (toBal + t.amount)
    (n3.addTransaction t env1.clock, env1)

/-- The COMMIT replication loop: a deadline hit returns immediately (the
master has already committed; remaining replicas are skipped). -/
def commitLoop (or : Oracle) (t : Transaction) (masterId : String)
    (fromBalance toBalance startTime : ℚ) : List Node → Env → List Node × Env
  | [], env => ([], env)
  | n :: ns, env =>
    if 5 < env.clock - startTime then (n :: ns, env)
    else
      let (n', env1) := commitReplicaStep or t masterId fromBalance toBalance n env
      let (rest, env2) := commitLoop or t masterId fromBalance toBalance startTime ns env1
      (n' :: rest, env2)

/-- Result of TransferService._commit_phase. -/
structure CommitRes where
  master : Node
  replicas : List Node
  ok : Bool
  exc : Option String
  env : Env
deriving DecidableEq

/-- TransferService._commit_phase: read both master balances, apply the
debit and the credit on the master unconditionally, append the record,
then best-effort replicate.  A missing master balance raises TypeError at
the corresponding set_balance line (after the debit already landed when
only the destination is missing), modelled by exc. -/
def commitPhase (or : Oracle) (t : Transaction) (master : Node) (replicas : List Node)
    (env : Env) : CommitRes :=
  let startTime := env.clock
  let (fb, m1) := master.getBalance t.from_user false env.clock
  let (tb, m2) := m1.getBalance t.to_user false env.clock
  match fb, tb with
  | some fromBalance, some toBalance =>
    let m3 := (m2.setBalance t.from_user (fromBalance - t.amount)).setBalance t.to_user
      (toBalance + t.amount)
    let m4 := m3.addTransaction t env.clock
    let (reps, env') := commitLoop or t master.id fromBalance toBalance startTime replicas env
    ⟨m4, reps, true, none, env'⟩
  | some fromBalance, none =>
    ⟨m2.setBalance t.from_user (fromBalance - t.amount), replicas, false,
     some "unsupported operand type(s) for +: NoneType and float", env⟩
  | none, _ =>
    ⟨m2, replicas, false,
     some "unsupported operand type(s) for -: NoneType and float", env⟩

/-- The fresh Transaction record built at the top of
TransferService.transfer. -/
def mkTransferTx (txId fromU toU : String) (amount : ℚ) : Transaction :=
  { transaction_id := txId, typ := TxType.transfer, from_user := fromU,
    to_user := toU, amount := amount }

/-- Result of TransferService.transfer. -/
structure XferOut where
  res : ResultMap
  master : Node
  replicas : List Node
  env : Env
  svc : TransferSvc
  tx : Transaction
deriving DecidableEq

/-- TransferService.transfer: pre-checks, PREPARE, COMMIT; any failed step
aborts (TimeoutError and other exceptions are converted into aborts with
the corresponding reason); on success the record is marked Committed and
the result carries both post-transfer balances re-read from the master.
The uuid-generated transaction id is a parameter. -/
def TransferService.transfer (or : Oracle) (txId fromU toU : String) (amount : ℚ)
    (master : Node) (replicas : List Node) (env : Env) (svc : TransferSvc) : XferOut :=
  let t : Transaction := mkTransferTx txId fromU toU amount
  let startClock := env.clock
  match preChecks t master env.clock with
  | (false, m1) =>
    let (res, svc', t') := abortTransaction t "Pre-checks failed" svc
    ⟨res, m1, replicas, env, svc', t'⟩
  | (true, m1) =>
    let pr := preparePhase or t m1 replicas env
    match pr.outcome with
    | PrepOutcome.timeout =>
      let (res, svc', t') := abortTransaction pr.tx "Timeout: Prepare phase timeout" svc
      ⟨res, pr.master, pr.replicas, pr.env, svc', t'⟩
    | PrepOutcome.exc m =>
      let (res, svc', t') := abortTransaction pr.tx ("Error: " ++ m) svc
      ⟨res, pr.master, pr.replicas, pr.env, svc', t'⟩
    | PrepOutcome.done ok =>
      if ok = false then
        let (res, svc', t') := abortTransaction pr.tx "Prepare phase failed" svc
        ⟨res, pr.master, pr.replicas, pr.env, svc', t'⟩
      else
        let cr := commitPhase or pr.tx pr.master pr.replicas pr.env
        match cr.exc with
        | some m =>
          let (res, svc', t') := abortTransaction pr.tx ("Error: " ++ m) svc
          ⟨res, cr.master, cr.replicas, cr.env, svc', t'⟩
        | none =>
          if cr.ok = false then
            let (res, svc', t') := abortTransaction pr.tx "Commit phase failed" svc
            ⟨res, cr.master, cr.replicas, cr.env, svc', t'⟩
          else
            let latency := (cr.env.clock - startClock) * 1000
            let t2 := pr.tx.markCommitted
            let svc' := { svc with committed := alset svc.committed txId t2 }
            let (nbf, mA) := cr.master.getBalance fromU false cr.env.clock
            let (nbt, mB) := mA.getBalance toU false cr.env.clock
            ⟨{ success := true, transaction_id := some txId,
               latency_ms := some latency, new_balance_from := nbf,
               new_balance_to := nbt }, mB, cr.replicas, cr.env, svc', t2⟩

/-- BalanceService counters. -/
structure BalanceSvc where
  query_count : ℕ := 0
  cache_hits : ℕ := 0
  cache_misses : ℕ := 0
deriving DecidableEq

/-- BalanceService._get_balance_ap: Node.get_balance with from_cache=true
(which itself falls back to the accounts map on a cache miss); a non-None
value is counted and tagged as a cache hit; otherwise a 50 ms simulated
read of the local replica, populating the cache on success. -/
def getBalanceAP (userId : String) (node : Node) (startClock : ℚ) (env : Env)
    (svc : BalanceSvc) : ResultMap × Node × Env × BalanceSvc :=
  match node.getBalance userId true env.clock with
  | (some b, node1) =>
    ({ success := true, balance := some b, source := some "cache",
       latency_ms := some ((env.clock - startClock) * 1000), freshness := some "cached" },
     node1, env, { svc with cache_hits := svc.cache_hits + 1 })
  | (none, node1) =>
    let svc1 : BalanceSvc := { svc with cache_misses := svc.cache_misses + 1 }
    let env1 : Env := { env with clock := env.clock + 1/20 }
    match node1.getBalance userId false env1.clock with
    | (some b, node2) =>
      let node3 := node2.setCache ("balance:" ++ userId) (CacheValue.bal b)
        ((alookup configCacheTTL "balance").getD 0) env1.clock
      ({ success := true, balance := some b, source := some "replica_local",
         latency_ms := some ((env1.clock - startClock) * 1000),
         freshness := some "recent",
         warning := some "Données peuvent avoir quelques secondes de retard" },
       node3, env1, svc1)
    | (none, node2) =>
      ({ success := false, error := some "Account not found",
         latency_ms := some ((env1.clock - startClock) * 1000) }, node2, env1, svc1)

/-- BalanceService._get_balance_cp: requires a master; unreachable master
(per can_reach_master) or a lost balance_query message fail; otherwise a
50 ms simulated read of the master's accounts map. -/
def getBalanceCP (or : Oracle) (userId : String) (node : Node) (master : Option Node)
    (startClock : ℚ) (env : Env) (svc : BalanceSvc) :
    ResultMap × Node × Option Node × Env × BalanceSvc :=
  match master with
  | none =>
    ({ success := false, error := some "Master node required for CP strategy" },
     node, none, env, svc)
  | some m =>
    if node.canReachMaster m = false then
      ({ success := false, error := some "Service temporarily unavailable",
         reason := some "Cannot reach master node",
         latency_ms := some ((env.clock - startClock) * 1000) }, node, some m, env, svc)
    else
      let (resp, env1) := NetSt.sendMessage or env node.id m.id "balance_query"
      match resp with
      | none =>
        ({ success := false, error := some "Service temporarily unavailable",
           latency_ms := some ((env1.clock - startClock) * 1000) }, node, some m, env1, svc)
      | some _ =>
        let env2 : Env := { env1 with clock := env1.clock + 1/20 }
        match m.getBalance userId false env2.clock with
        | (some b, m1) =>
          ({ success := true, balance := some b, source := some "master",
             latency_ms := some ((env2.clock - startClock) * 1000),
             freshness := some "guaranteed_accurate" }, node, some m1, env2, svc)
        | (none, m1) =>
          ({ success := false, error := some "Account not found",
             latency_ms := some ((env2.clock - startClock) * 1000) }, node, some m1, env2, svc)

/-- BalanceService.get_balance: bump query_count, dispatch on strategy. -/
def BalanceService.getBalance (or : Oracle) (userId : String) (node : Node)
    (master : Option Node) (strategy : String) (env : Env) (svc : BalanceSvc) :
    ResultMap × Node × Option Node × Env × BalanceSvc :=
  let svc0 : BalanceSvc := { svc with query_count := svc.query_count + 1 }
  if strategy = "AP" then
    let (res, node', env', svc') := getBalanceAP userId node env.clock env svc0
    (res, node', master, env', svc')
  else
    getBalanceCP or userId node master env.clock env svc0

/-- HistoryService counter. -/
structure HistorySvc where
  query_count : ℕ := 0
deriving DecidableEq

/-- HistoryService.get_history (always AP): direct cache probe via
Node._get_from_cache; on a miss, 150 ms simulated scan of the local log,
populating the cache only when the filtered list is nonempty (an empty
history is still success with count 0). -/
def HistoryService.getHistory (userId : String) (node : Node) (limit : ℕ) (env : Env)
    (svc : HistorySvc) : ResultMap × Node × Env × HistorySvc :=
  let svc1 : HistorySvc := { svc with query_count := svc.query_count + 1 }
  let startClock := env.clock
  match node.getFromCache ("history:" ++ userId) env.clock with
  | (some (CacheValue.hist l), node1) =>
    ({ success := true, transactions := some (l.take limit), count := some l.length,
       source := some "cache", latency_ms := some ((env.clock - startClock) * 1000) },
     node1, env, svc1)
  | (some (CacheValue.bal _), node1) =>
    -- unreachable by key discipline: "history:" keys only ever hold hist values
    ({ success := true, transactions := some [], count := some 0,
       source := some "cache", latency_ms := some ((env.clock - startClock) * 1000) },
     node1, env, svc1)
  | (none, node1) =>
    let env1 : Env := { env with clock := env.clock + 3/20 }
    let (txs, node2) := node1.getTransactions userId false env1.clock
    if txs.isEmpty then
      ({ success := true, transactions := some [], count := some 0,
         source := some "replica_local",
         latency_ms := some ((env1.clock - startClock) * 1000) }, node2, env1, svc1)
    else
      let node3 := node2.setCache ("history:" ++ userId) (CacheValue.hist txs)
        ((alookup configCacheTTL "history").getD 0) env1.clock
      ({ success := true, transactions := some (txs.take limit), count := some txs.length,
         source := some "replica_local",
         latency_ms := some ((env1.clock - startClock) * 1000),
         warning := some "Les transactions très récentes peuvent ne pas apparaître" },
       node3, env1, svc1)

/-- PaymentService counters. -/
structure PaymentSvc where
  payment_count : ℕ := 0
  success_count : ℕ := 0
  failed_count : ℕ := 0
deriving DecidableEq

/-- PaymentService._fail_payment. -/
def failPayment (t : Transaction) (reason : String) (startClock : ℚ) (env : Env)
    (svc : PaymentSvc) : ResultMap × PaymentSvc × Transaction :=
  let t' := t.markFailed reason
  ({ success := false, transaction_id := some t.transaction_id, error := some reason,
     latency_ms := some ((env.clock - startClock) * 1000) },
   { svc with failed_count := svc.failed_count + 1 }, t')

/-- PaymentService._call_provider_api: a 2.0-2.9 s simulated external call
(duration from the hash draw) that succeeds iff the success draw exceeds
0.05. -/
def callProviderApi (or : Oracle) (env : Env) : Bool × Option String × Env :=
  let apiLatency : ℚ := 2 + ((or.apiHash env.provK % 10 : ℕ) : ℚ) / 10
  let env1 : Env := { env with clock := env.clock + apiLatency, provK := env.provK + 1 }
  if 1/20 < or.providerSucc env.provK then
    (true, some ("RCPT_" ++ or.receiptId env.provK), env1)
  else
    (false, none, env1)

/-- The fire-and-forget replication loop of _pay_bill_cp_strict: on
per-replica delivery, debit the replica's stored balance (a missing
balance raises TypeError, which propagates out of the loop with the nodes
mutated so far kept) and append the record. -/
def payReplicateLoop (or : Oracle) (t : Transaction) (masterId : String) :
    List Node → Env → List Node × Env × Option String
  | [], env => ([], env, none)
  | n :: ns, env =>
    let (resp, env1) := NetSt.sendMessage or env masterId n.id "payment_replicate"
    match resp with
    | none =>
      let (rest, env2, e) := payReplicateLoop or t masterId ns env1
      (n :: rest, env2, e)
    | some _ =>
      match n.getBalance t.from_user false env1.clock with
      | (none, n1) =>
        (n1 :: ns, env1, some "unsupported operand type(s) for -: NoneType and float")
      | (some b, n1) =>
        let n2 := (n1.setBalance t.from_user (b - t.amount)).addTransaction t env1.clock
        let (rest, env2, e) := payReplicateLoop or t masterId ns env1
        (n2 :: rest, env2, e)

/-- Result of PaymentService.pay_bill. -/
structure PayOut where
  res : ResultMap
  master : Node
  replicas : List Node
  env : Env
  svc : PaymentSvc
  tx : Transaction
deriving DecidableEq

/-- PaymentService._pay_bill_cp_strict: debit the master, call the
provider; on provider failure restore the pre-debit balance and report
Failed; on success append the record, replicate best-effort, and report
Committed with the receipt id and the re-read master balance. -/
def payBillCpStrict (or : Oracle) (t : Transaction) (master : Node)
    (replicas : List Node) (startClock : ℚ) (env : Env) (svc : PaymentSvc) : PayOut :=
  match master.getBalance t.from_user false env.clock with
  | (none, m1) =>
    -- TypeError on "balance - amount"; caught by pay_bill and converted
    let (res, svc', t') := failPayment t
      "unsupported operand type(s) for -: NoneType and float" startClock env svc
    ⟨res, m1, replicas, env, svc', t'⟩
  | (some balance, m1) =>
    let m2 := m1.setBalance t.from_user (balance - t.amount)
    let (succ, rcpt, env1) := callProviderApi or env
    if succ = false then
      let m3 := m2.setBalance t.from_user balance
      let (res, svc', t') := failPayment t "Provider API failed" startClock env1 svc
      ⟨res, m3, replicas, env1, svc', t'⟩
    else
      let m4 := m2.addTransaction t env1.clock
      let (reps, env2, excRep) := payReplicateLoop or t master.id replicas env1
      match excRep with
      | some m =>
        let (res, svc', t') := failPayment t m startClock env2 svc
        ⟨res, m4, reps, env2, svc', t'⟩
      | none =>
        let t2 := t.markCommitted
        let svc' : PaymentSvc := { svc with success_count := svc.success_count + 1 }
        let (nb, m5) := m4.getBalance t.from_user false env2.clock
        ⟨{ success := true, transaction_id := some t.transaction_id, receipt_id := rcpt,
           latency_ms := some ((env2.clock - startClock) * 1000), new_balance := nb },
         m5, reps, env2, svc', t2⟩

/-- PaymentService._pay_bill_adaptive: amounts under 5000 are debited
immediately and reported Committed with status pending (queued); larger
amounts fall through to the strict path. -/
def payBillAdaptive (or : Oracle) (t : Transaction) (master : Node)
    (replicas : List Node) (startClock : ℚ) (env : Env) (svc : PaymentSvc) : PayOut :=
  if t.amount < 5000 then
    match master.getBalance t.from_user false env.clock with
    | (none, m1) =>
      let (res, svc', t') := failPayment t
        "unsupported operand type(s) for -: NoneType and float" startClock env svc
      ⟨res, m1, replicas, env, svc', t'⟩
    | (some balance, m1) =>
      let m2 := m1.setBalance t.from_user (balance - t.amount)
      let t1 : Transaction := { t with meta_queued := true }
      let t2 := t1.markCommitted
      let svc' : PaymentSvc := { svc with success_count := svc.success_count + 1 }
      let (nb, m3) := m2.getBalance t.from_user false env.clock
      ⟨{ success := true, transaction_id := some t.transaction_id,
         status := some "pending",
         message := some "Paiement en cours de traitement (2-5 minutes)",
         latency_ms := some ((env.clock - startClock) * 1000), new_balance := nb },
       m3, replicas, env, svc', t2⟩
  else
    payBillCpStrict or t master replicas startClock env svc

/-- PaymentService.pay_bill: bump payment_count, pre-check the master
balance (missing account or insufficient balance fail immediately), then
dispatch on strategy.  The uuid-generated id is a parameter. -/
def PaymentService.payBill (or : Oracle) (txId userId provider : String) (amount : ℚ)
    (master : Node) (replicas : List Node) (strategy : String) (env : Env)
    (svc : PaymentSvc) : PayOut :=
  let svc1 : PaymentSvc := { svc with payment_count := svc.payment_count + 1 }
  let t : Transaction :=
    { transaction_id := txId, typ := TxType.payment, from_user := userId,
      to_user := provider, amount := amount, meta_provider := some provider }
  let startClock := env.clock
  match master.getBalance userId false env.clock with
  | (none, m1) =>
    let (res, svc', t') := failPayment t "Insufficient balance" startClock env svc1
    ⟨res, m1, replicas, env, svc', t'⟩
  | (some b, m1) =>
    if b < amount then
      let (res, svc', t') := failPayment t "Insufficient balance" startClock env svc1
      ⟨res, m1, replicas, env, svc', t'⟩
    else if strategy = "CP" then
      payBillCpStrict or t m1 replicas startClock env svc1
    else
      payBillAdaptive or t m1 replicas startClock env svc1

/-- Result of a strategy-level transfer call. -/
structure SXferOut where
  res : ResultMap
  node : Node
  master : Node
  replicas : List Node
  env : Env
  svc : TransferSvc
deriving DecidableEq

/-- Result of a strategy-level balance query. -/
structure SBalOut where
  res : ResultMap
  node : Node
  master : Node
  env : Env
  svc : BalanceSvc
deriving DecidableEq

/-- Result of a strategy-level history query. -/
structure SHistOut where
  res : ResultMap
  node : Node
  master : Node
  env : Env
  svc : HistorySvc
deriving DecidableEq

/-- Result of a strategy-level payment call. -/
structure SPayOut where
  res : ResultMap
  node : Node
  master : Node
  replicas : List Node
  env : Env
  svc : PaymentSvc
deriving DecidableEq

/-- PureCPStrategy.execute_transfer: deny immediately when the calling node
cannot reach the master, else delegate to TransferService in CP mode. -/
def PureCP.executeTransfer (or : Oracle) (txId fromU toU : String) (amount : ℚ)
    (node master : Node) (replicas : List Node) (env : Env) (svc : TransferSvc) :
    SXferOut :=
  if node.canReachMaster master = false then
    ⟨{ success := false, error := some "Service temporarily unavailable",
       reason := some "Cannot reach master node (network partition)",
       strategy := some "CP_STRICT" }, node, master, replicas, env, svc⟩
  else
    let o := TransferService.transfer or txId fromU toU amount master replicas env svc
    ⟨o.res, node, o.master, o.replicas, o.env, o.svc⟩

/-- PureCPStrategy.execute_balance_query: deny when the master is
unreachable, else read from the master via the CP path. -/
def PureCP.executeBalanceQuery (or : Oracle) (userId : String) (node master : Node)
    (env : Env) (svc : BalanceSvc) : SBalOut :=
  if node.canReachMaster master = false then
    ⟨{ success := false, error := some "Service temporarily unavailable",
       reason := some "Cannot reach master node", strategy := some "CP_STRICT" },
     node, master, env, svc⟩
  else
    let (res, node', m', env', svc') :=
      BalanceService.getBalance or userId node (some master) "CP" env svc
    ⟨res, node', m'.getD master, env', svc'⟩

/-- PureCPStrategy.execute_history_query: deny when the master is
unreachable, else fetch the history FROM THE MASTER (deliberately
inefficient but consistent). -/
def PureCP.executeHistoryQuery (userId : String) (node master : Node) (env : Env)
    (svc : HistorySvc) : SHistOut :=
  if node.canReachMaster master = false then
    ⟨{ success := false, error := some "Service temporarily unavailable",
       reason := some "Cannot reach master node", strategy := some "CP_STRICT" },
     node, master, env, svc⟩
  else
    let (res, m', env', svc') := HistoryService.getHistory userId master 50 env svc
    ⟨res, node, m', env', svc'⟩

/-- PureCPStrategy.execute_payment: deny when the master is unreachable,
else delegate to PaymentService in CP mode. -/
def PureCP.executePayment (or : Oracle) (txId userId provider : String) (amount : ℚ)
    (node master : Node) (replicas : List Node) (env : Env) (svc : PaymentSvc) :
    SPayOut :=
  if node.canReachMaster master = false then
    ⟨{ success := false, error := some "Service temporarily unavailable",
       reason := some "Cannot reach master node", strategy := some "CP_STRICT" },
     node, master, replicas, env, svc⟩
  else
    let o := PaymentService.payBill or txId userId provider amount master replicas "CP" env svc
    ⟨o.res, node, o.master, o.replicas, o.env, o.svc⟩

/-- AdaptiveStrategy.execute_payment: when the master is unreachable,
amounts under 5000 get a synthesized locally-queued success (no service
call, no state change) and larger amounts a guidance failure; when
reachable, delegate to PaymentService in adaptive mode. -/
def Adaptive.executePayment (or : Oracle) (txId userId provider : String) (amount : ℚ)
    (node master : Node) (replicas : List Node) (env : Env) (svc : PaymentSvc) :
    SPayOut :=
  if node.canReachMaster master = false then
    if amount < 5000 then
      ⟨{ success := true,
         transaction_id := some ("queue_" ++ toString ⌊env.clock⌋),
         status := some "queued",
         message := some ("Paiement de " ++ toString amount ++
           " FCFA mis en file d'attente"),
         warning := some "Traitement différé jusqu'à reconnexion réseau",
         partition_mode := some true, strategy := some "ADAPTIVE_AP_QUEUE" },
       node, master, replicas, env, svc⟩
    else
      ⟨{ success := false,
         error := some "Paiements gros montants temporairement indisponibles",
         reason := some "Problème de connexion réseau",
         message := some ("Les paiements >=5000 FCFA nécessitent une connexion sécurisée.\n" ++
           "Vous pouvez effectuer des paiements plus petits en attendant."),
         strategy := some "ADAPTIVE" }, node, master, replicas, env, svc⟩
  else
    let o := PaymentService.payBill or txId userId provider amount master replicas
      "ADAPTIVE" env svc
    ⟨o.res, node, o.master, o.replicas, o.env, o.svc⟩

/-! ### Concrete fixtures used by the closed-form theorems below

These mirror the topology of src/config/network_config.py (DAKAR master,
SAINT_LOUIS read-write replica, ZIGUINCHOR analytics replica) and the
driver's NetworkSimulator('normal'). -/

/-- An oracle whose draws always deliver messages (loss draw 0.5, i.e.
50 < packet-loss percentage is false in every mode except partitioned),
with zero jitter and a succeeding provider. -/
def orDeliver : Oracle :=
  ⟨fun _ => 1/2, fun _ => 0, fun _ => 1/2, fun _ => 0, fun _ => "x"⟩

/-- Like orDeliver but the provider-success draw is 0, so the external
provider call fails (0 is not greater than 0.05). -/
def orProvFail : Oracle :=
  ⟨fun _ => 1/2, fun _ => 0, fun _ => 0, fun _ => 0, fun _ => "x"⟩

/-- A fresh environment: normal network mode, clock 0, counters 0. -/
def env0 : Env := ⟨NetSt.init "normal", 0, 0, 0⟩

/-- The environment at wall-clock instant 20 s. -/
def envAt20 : Env := ⟨NetSt.init "normal", 20, 0, 0⟩

/-- The environment at wall-clock instant 5 s. -/
def envAt5 : Env := ⟨NetSt.init "normal", 5, 0, 0⟩

/-- The DAKAR master with two seeded accounts. -/
def masterA : Node :=
  ⟨"DAKAR", "Dakar", NodeRole.master, NodeState.healthy,
   [("a", 10), ("b", 3)], [], [], 0, 0, 0, []⟩

/-- The DAKAR master with no accounts (pre-checks must fail). -/
def masterEmpty : Node :=
  ⟨"DAKAR", "Dakar", NodeRole.master, NodeState.healthy, [], [], [], 0, 0, 0, []⟩

/-- The SAINT_LOUIS read-write replica with the same seeded accounts. -/
def replB : Node :=
  ⟨"SAINT_LOUIS", "Saint-Louis", NodeRole.replica_rw, NodeState.healthy,
   [("a", 10), ("b", 3)], [], [], 0, 0, 0, []⟩

/-- A SAINT_LOUIS replica in the Degraded state (reachable but failing
its is_healthy check). -/
def replDegraded : Node :=
  ⟨"SAINT_LOUIS", "Saint-Louis", NodeRole.replica_rw, NodeState.degraded,
   [("a", 10), ("b", 3)], [], [], 0, 0, 0, []⟩

/-- A SAINT_LOUIS replica whose stored balance for user "a" is 0 (a falsy
value for Python "or"). -/
def replZeroBal : Node :=
  ⟨"SAINT_LOUIS", "Saint-Louis", NodeRole.replica_rw, NodeState.healthy,
   [("a", 0), ("b", 1)], [], [], 0, 0, 0, []⟩

/-- The ZIGUINCHOR node isolated from the DAKAR master (its reachability
entry for DAKAR is false), as PartitionController leaves it. -/
def nodeIsolated : Node :=
  ⟨"ZIGUINCHOR", "Ziguinchor", NodeRole.replica_analytics, NodeState.isolated,
   [("a", 10)], [], [], 0, 0, 0, [("DAKAR", false)]⟩

/-- A replica holding an expired cache entry for user "u1" (cached value
500, expiry instant 10) while its authoritative map says 700. -/
def nodeStaleCache : Node :=
  ⟨"SAINT_LOUIS", "Saint-Louis", NodeRole.replica_rw, NodeState.healthy,
   [("u1", 700)], [], [("balance:u1", (CacheValue.bal 500, 10))], 0, 0, 0, []⟩

/-- A concrete transfer record between distinct users. -/
def txAB : Transaction := mkTransferTx "T5" "a" "b" 10

/-- The network/node state after create-partition between DAKAR and
SAINT_LOUIS in the driver's 'normal' mode. -/
def c3Created : Env × Node × Node := PartitionSim.createPartition env0 masterA replB

/-- The network/node state after the subsequent heal-partition call. -/
def c3Healed : Env × Node × Node :=
  PartitionSim.healPartition c3Created.1 c3Created.2.1 c3Created.2.2

/-! ### Frame lemmas: which parts of a node each operation leaves intact -/

theorem getFromCache_accounts (n : Node) (k : String) (now : ℚ) :
    ((n.getFromCache k now).2).accounts = n.accounts := by
  unfold Node.getFromCache
  rcases alookup n.cache k with _ | ⟨v, expiry⟩
  · rfl
  · by_cases h : now < expiry <;> simp [h]

theorem getBalance_accounts (n : Node) (u : String) (fc : Bool) (now : ℚ) :
    ((n.getBalance u fc now).2).accounts = n.accounts := by
  unfold Node.getBalance
  cases fc
  · rfl
  · simp only [Bool.if_true_left]
    rcases h : ({ n with requestCount := n.requestCount + 1 } : Node).getFromCache
        ("balance:" ++ u) now with ⟨c, n1⟩
    have hacc : n1.accounts = n.accounts := by
      have := getFromCache_accounts ({ n with requestCount := n.requestCount + 1 }) ("balance:" ++ u) now
      rw [h] at this
      exact this
    rcases c with _ | v
    · simpa [h] using hacc
    · rcases v with b | l <;> simpa [h] using hacc

theorem getBalance_fst (n : Node) (u : String) (now : ℚ) :
    (n.getBalance u false now).1 = alookup n.accounts u := by
  rfl

theorem isHealthy_accounts (n : Node) (now : ℚ) :
    ((n.isHealthy now).2).accounts = n.accounts := by
  unfold Node.isHealthy
  by_cases h : 3 < now - n.lastHeartbeat <;> simp [h]

theorem canNodePrepare_accounts (now : ℚ) (n : Node) (t : Transaction) :
    ((canNodePrepare now n t).2).accounts = n.accounts := by
  unfold canNodePrepare
  rcases hh : n.isHealthy now with ⟨hb, n1⟩
  have h1 : n1.accounts = n.accounts := by
    have := isHealthy_accounts n now
    rw [hh] at this
    exact this
  cases hb
  · simpa using h1
  · simp only
    by_cases hm : n1.isMaster
    · rcases hg : n1.getBalance t.from_user false now with ⟨b, n2⟩
      have h2 : n2.accounts = n1.accounts := by
        have := getBalance_accounts n1 t.from_user false now
        rw [hg] at this
        exact this
      rcases b with _ | b <;> simp [hm, hg, h2, h1]
    · simpa [hm] using h1

theorem prepStep_accounts (or : Oracle) (masterId : String) (t : Transaction) (n : Node)
    (env : Env) : ((prepStep or masterId t n env).node).accounts = n.accounts := by
  unfold prepStep
  rcases hs : NetSt.sendMessage or env masterId n.id "prepare" with ⟨resp, env1⟩
  rcases resp with _ | u
  · simp
  · simp only
    rcases hc : canNodePrepare env1.clock n t with ⟨c, n1⟩
    have h1 : n1.accounts = n.accounts := by
      have := canNodePrepare_accounts env1.clock n t
      rw [hc] at this
      exact this
    rcases c with _ | c <;> simp [h1]

theorem prepLoop_accounts (or : Oracle) (masterId : String) (t : Transaction)
    (startTime : ℚ) : ∀ (ns : List Node) (env : Env),
    ((prepLoop or masterId t startTime ns env).nodes).map Node.accounts
      = ns.map Node.accounts := by
  intro ns
  induction ns with
  | nil => intro env; rfl
  | cons n ns ih =>
    intro env
    unfold prepLoop
    by_cases ht : 5 < env.clock - startTime
    · simp [ht]
    · simp only [ht, if_false]
      rcases he : (prepStep or masterId t n env).exc with _ | m
      · simp [he, prepStep_accounts, ih]
      · simp [he, prepStep_accounts]

theorem preparePhase_accounts (or : Oracle) (t : Transaction) (master : Node)
    (replicas : List Node) (env : Env) :
    ((preparePhase or t master replicas env).master).accounts = master.accounts ∧
    ((preparePhase or t master replicas env).replicas).map Node.accounts
      = replicas.map Node.accounts := by
  unfold preparePhase
  have hmap := prepLoop_accounts or master.id t env.clock (master :: replicas) env
  rcases hn : (prepLoop or master.id t env.clock (master :: replicas) env).nodes
      with _ | ⟨h0, rest⟩
  · rw [hn] at hmap
    simp at hmap
  · rw [hn] at hmap
    simp only [List.map_cons, List.cons.injEq] at hmap
    rcases hh : (prepLoop or master.id t env.clock (master :: replicas) env).halt
        with _ | halt
    · simp [hn, hh, hmap.1, hmap.2]
    · rcases halt <;> simp [hn, hh, hmap.1, hmap.2]

theorem preChecks_accounts (t : Transaction) (m : Node) (now : ℚ) :
    ((preChecks t m now).2).accounts = m.accounts := by
  unfold preChecks
  rcases hg : m.getBalance t.from_user false now with ⟨b, m1⟩
  have h1 : m1.accounts = m.accounts := by
    have := getBalance_accounts m t.from_user false now
    rw [hg] at this
    exact this
  rcases b with _ | b
  · simpa using h1
  · simp only
    by_cases hlt : b < t.amount
    · simp [hlt, h1]
    · rcases hg2 : m1.getBalance t.to_user false now with ⟨tb, m2⟩
      have h2 : m2.accounts = m1.accounts := by
        have := getBalance_accounts m1 t.to_user false now
        rw [hg2] at this
        exact this
      simp [hlt, hg2, h2, h1]

theorem preparePhase_votes_done (or : Oracle) (t : Transaction) (master : Node)
    (replicas : List Node) (env : Env) (allY : Bool)
    (h : (preparePhase or t master replicas env).outcome = PrepOutcome.done allY) :
    ((preparePhase or t master replicas env).votes.all fun v => decide (v.2 = "YES"))
      = allY := by
  unfold preparePhase at h ⊢
  rcases hh : (prepLoop or master.id t env.clock (master :: replicas) env).halt
      with _ | halt
  · simp [hh] at h ⊢
    exact h
  · rcases halt <;> simp [hh] at h

theorem all_yes_false_of_any_no (l : List (String × String))
    (h : (l.any fun v => decide (v.2 = "NO")) = true) :
    (l.all fun v => decide (v.2 = "YES")) = false := by
  rcases List.any_eq_true.mp h with ⟨v, hv, hNO⟩
  simp only [decide_eq_true_eq] at hNO
  cases hx : l.all fun v => decide (v.2 = "YES")
  · rfl
  · have := List.all_eq_true.mp hx v hv
    simp only [decide_eq_true_eq] at this
    rw [hNO] at this
    exact absurd this (by decide)

/-- C1: 2PC atomicity.  For every transfer call (any oracle, any starting
state), if the pre-checks fail or some participant's PREPARE vote is NO,
then the call returns success = false and the balance map of the master
and of every replica is exactly what it was before the call. -/
theorem c1_2pc_atomicity (or : Oracle) (txId fromU toU : String) (amount : ℚ)
    (master : Node) (replicas : List Node) (env : Env) (svc : TransferSvc)
    (h : (preChecks (mkTransferTx txId fromU toU amount) master env.clock).1 = false ∨
      ((preparePhase or (mkTransferTx txId fromU toU amount)
          (preChecks (mkTransferTx txId fromU toU amount) master env.clock).2
          replicas env).votes.any fun v => decide (v.2 = "NO")) = true) :
    (TransferService.transfer or txId fromU toU amount master replicas env svc).res.success
        = false ∧
    (TransferService.transfer or txId fromU toU amount master replicas env svc).master.accounts
        = master.accounts ∧
    ((TransferService.transfer or txId fromU toU amount master replicas env svc).replicas.map
        Node.accounts) = replicas.map Node.accounts := by
  unfold TransferService.transfer
  rcases hpc : preChecks (mkTransferTx txId fromU toU amount) master env.clock with ⟨pc, m1⟩
  have hm1 : m1.accounts = master.accounts := by
    have := preChecks_accounts (mkTransferTx txId fromU toU amount) master env.clock
    rw [hpc] at this
    exact this
  cases pc
  · simp [hpc, abortTransaction, hm1]
  · rcases h with h | h
    · rw [hpc] at h
      simp at h
    · rw [hpc] at h
      have hpp := preparePhase_accounts or (mkTransferTx txId fromU toU amount) m1 replicas env
      rcases ho : (preparePhase or (mkTransferTx txId fromU toU amount) m1 replicas env).outcome
          with allY | _ | m
      · have hv := preparePhase_votes_done or (mkTransferTx txId fromU toU amount) m1
          replicas env allY ho
        have hfalse : allY = false := by
          rw [← hv]
          exact all_yes_false_of_any_no _ h
        subst hfalse
        simp [hpc, ho, abortTransaction, hpp.1, hpp.2, hm1]
      · simp [hpc, ho, abortTransaction, hpp.1, hpp.2, hm1]
      · simp [hpc, ho, abortTransaction, hpp.1, hpp.2, hm1]

/-- Witness for C1 at a concrete input: a transfer whose pre-checks fail
(the master has no account for the source user). -/
theorem c1_2pc_atomicity_witness :
    (TransferService.transfer orDeliver "TW1" "a" "b" 5 masterEmpty [] env0 {}).res.success
        = false ∧
    (TransferService.transfer orDeliver "TW1" "a" "b" 5 masterEmpty [] env0 {}).master.accounts
        = masterEmpty.accounts ∧
    ((TransferService.transfer orDeliver "TW1" "a" "b" 5 masterEmpty [] env0 {}).replicas.map
        Node.accounts) = ([] : List Node).map Node.accounts :=
  c1_2pc_atomicity orDeliver "TW1" "a" "b" 5 masterEmpty [] env0 {}
    (Or.inl (by with_unfolding_all decide))

theorem commitPhase_exc_none (or : Oracle) (t : Transaction) (master : Node)
    (replicas : List Node) (env : Env)
    (h : (commitPhase or t master replicas env).exc = none) :
    (commitPhase or t master replicas env).ok = true ∧
    ∃ fb tb, alookup master.accounts t.from_user = some fb ∧
      alookup master.accounts t.to_user = some tb ∧
      (commitPhase or t master replicas env).master.accounts =
        alset (alset master.accounts t.from_user (fb - t.amount)) t.to_user
          (tb + t.amount) := by
  unfold commitPhase at h ⊢
  rcases hg1 : master.getBalance t.from_user false env.clock with ⟨fbq, m1⟩
  have h1 : m1.accounts = master.accounts := by
    have := getBalance_accounts master t.from_user false env.clock
    rw [hg1] at this
    exact this
  rcases hg2 : m1.getBalance t.to_user false env.clock with ⟨tbq, m2⟩
  have h2 : m2.accounts = m1.accounts := by
    have := getBalance_accounts m1 t.to_user false env.clock
    rw [hg2] at this
    exact this
  rcases fbq with _ | fb
  · simp [hg1, hg2] at h
  · rcases tbq with _ | tb
    · simp [hg1, hg2] at h
    · refine ⟨by simp [hg1, hg2], fb, tb, ?_, ?_, ?_⟩
      · have hv : (master.getBalance t.from_user false env.clock).1 = some fb := by
          rw [hg1]
        rw [getBalance_fst] at hv
        exact hv
      · have hv : (m1.getBalance t.to_user false env.clock).1 = some tb := by
          rw [hg2]
        rw [getBalance_fst, h1] at hv
        exact hv
      · simp [hg1, hg2, Node.setBalance, Node.addTransaction, Node.invalidateCache, h2, h1]

/-- C2 counterexample: the claim quantifies over EVERY successful transfer,
but a self-transfer (source = destination) succeeds and leaves the source
balance INCREASED by the amount (the credit overwrites the debit), not
decreased: with balance 10 and amount 5 the post-balance is 15, not 5. -/
theorem c2_counterexample :
    (TransferService.transfer orDeliver "T1" "a" "a" 5 masterA [] env0 {}).res.success
        = true ∧
    alookup masterA.accounts "a" = some 10 ∧
    alookup (TransferService.transfer orDeliver "T1" "a" "a" 5 masterA [] env0
        {}).master.accounts "a" = some 15 ∧
    ¬ alookup (TransferService.transfer orDeliver "T1" "a" "a" 5 masterA [] env0
        {}).master.accounts "a" = some (10 - 5) := by
  with_unfolding_all decide

theorem preparePhase_tx_fields (or : Oracle) (t : Transaction) (master : Node)
    (replicas : List Node) (env : Env) :
    ((preparePhase or t master replicas env).tx).transaction_id = t.transaction_id ∧
    ((preparePhase or t master replicas env).tx).from_user = t.from_user ∧
    ((preparePhase or t master replicas env).tx).to_user = t.to_user ∧
    ((preparePhase or t master replicas env).tx).amount = t.amount := by
  unfold preparePhase
  rcases hh : (prepLoop or master.id t env.clock (master :: replicas) env).halt
      with _ | halt
  · simp only [hh]
    split <;> simp [Transaction.markPrepared]
  · rcases halt <;> simp [hh]

/-- C2 (amended with the distinctness the counterexample forces): for every
transfer between DISTINCT users that returns success = true, the master's
balance map shows the source decreased and the destination increased by
the amount relative to the pre-transfer state, and the result carries the
transaction id and both post-transfer balances as re-read from the
master. -/
theorem c2_success_postcondition (or : Oracle) (txId fromU toU : String) (amount : ℚ)
    (master : Node) (replicas : List Node) (env : Env) (svc : TransferSvc)
    (hne : fromU ≠ toU)
    (hs : (TransferService.transfer or txId fromU toU amount master replicas env
        svc).res.success = true) :
    ∃ f t,
      alookup master.accounts fromU = some f ∧
      alookup master.accounts toU = some t ∧
      alookup (TransferService.transfer or txId fromU toU amount master replicas env
          svc).master.accounts fromU = some (f - amount) ∧
      alookup (TransferService.transfer or txId fromU toU amount master replicas env
          svc).master.accounts toU = some (t + amount) ∧
      (TransferService.transfer or txId fromU toU amount master replicas env
          svc).res.transaction_id = some txId ∧
      (TransferService.transfer or txId fromU toU amount master replicas env
          svc).res.new_balance_from = some (f - amount) ∧
      (TransferService.transfer or txId fromU toU amount master replicas env
          svc).res.new_balance_to = some (t + amount) := by
  unfold TransferService.transfer at hs ⊢
  rcases hpc : preChecks (mkTransferTx txId fromU toU amount) master env.clock with ⟨pc, m1⟩
  have hm1 : m1.accounts = master.accounts := by
    have := preChecks_accounts (mkTransferTx txId fromU toU amount) master env.clock
    rw [hpc] at this
    exact this
  cases pc
  · simp only [hpc, abortTransaction] at hs
    exact absurd hs (by decide)
  · simp only [hpc] at hs ⊢
    have hpp := preparePhase_accounts or (mkTransferTx txId fromU toU amount) m1 replicas env
    have htx := preparePhase_tx_fields or (mkTransferTx txId fromU toU amount) m1 replicas env
    rcases ho : (preparePhase or (mkTransferTx txId fromU toU amount) m1 replicas
        env).outcome with allY | _ | m
    · simp only [ho] at hs ⊢
      cases allY
      · simp [abortTransaction] at hs
      · simp only [Bool.true_eq_false, if_false, reduceIte] at hs ⊢
        rcases hce : (commitPhase or
            (preparePhase or (mkTransferTx txId fromU toU amount) m1 replicas env).tx
            (preparePhase or (mkTransferTx txId fromU toU amount) m1 replicas env).master
            (preparePhase or (mkTransferTx txId fromU toU amount) m1 replicas env).replicas
            (preparePhase or (mkTransferTx txId fromU toU amount) m1 replicas env).env).exc
            with _ | m
        · have hcs := commitPhase_exc_none or
            (preparePhase or (mkTransferTx txId fromU toU amount) m1 replicas env).tx
            (preparePhase or (mkTransferTx txId fromU toU amount) m1 replicas env).master
            (preparePhase or (mkTransferTx txId fromU toU amount) m1 replicas env).replicas
            (preparePhase or (mkTransferTx txId fromU toU amount) m1 replicas env).env hce
          rcases hcs with ⟨hok, fb, tb, hfb, htb, hacc⟩
          rcases htx with ⟨hid, hfrom, hto, hamt⟩
          have hfrom' : (preparePhase or (mkTransferTx txId fromU toU amount) m1 replicas
              env).tx.from_user = fromU := hfrom
          have hto' : (preparePhase or (mkTransferTx txId fromU toU amount) m1 replicas
              env).tx.to_user = toU := hto
          have hamt' : (preparePhase or (mkTransferTx txId fromU toU amount) m1 replicas
              env).tx.amount = amount := hamt
          rw [hfrom'] at hfb hacc
          rw [hto'] at htb hacc
          rw [hamt'] at hacc
          rw [hpp.1, hm1] at hfb htb
          refine ⟨fb, tb, hfb, htb, ?_⟩
          simp only [hce, hok, Bool.true_eq_false, ite_false]
          refine ⟨?_, ?_, trivial, ?_, ?_⟩
          · simp only [getBalance_accounts]
            rw [hacc, hpp.1, hm1,
              alookup_alset_other _ toU fromU _ (Ne.symm hne), alookup_alset_same]
          · simp only [getBalance_accounts]
            rw [hacc, hpp.1, hm1, alookup_alset_same]
          · simp only [getBalance_fst, getBalance_accounts]
            rw [hacc, hpp.1, hm1,
              alookup_alset_other _ toU fromU _ (Ne.symm hne), alookup_alset_same]
          · simp only [getBalance_fst, getBalance_accounts]
            rw [hacc, hpp.1, hm1, alookup_alset_same]
        · simp only [hce, abortTransaction] at hs
          exact absurd hs (by decide)
    · simp only [ho, abortTransaction] at hs
      exact absurd hs (by decide)
    · simp only [ho, abortTransaction] at hs
      exact absurd hs (by decide)

/-- Witness for C2 (amended) at a concrete input: a successful transfer of
5 from "a" (balance 10) to "b" (balance 3) on the seeded master. -/
theorem c2_success_postcondition_witness :
    ∃ f t,
      alookup masterA.accounts "a" = some f ∧
      alookup masterA.accounts "b" = some t ∧
      alookup (TransferService.transfer orDeliver "T2" "a" "b" 5 masterA [] env0
          {}).master.accounts "a" = some (f - 5) ∧
      alookup (TransferService.transfer orDeliver "T2" "a" "b" 5 masterA [] env0
          {}).master.accounts "b" = some (t + 5) ∧
      (TransferService.transfer orDeliver "T2" "a" "b" 5 masterA [] env0
          {}).res.transaction_id = some "T2" ∧
      (TransferService.transfer orDeliver "T2" "a" "b" 5 masterA [] env0
          {}).res.new_balance_from = some (f - 5) ∧
      (TransferService.transfer orDeliver "T2" "a" "b" 5 masterA [] env0
          {}).res.new_balance_to = some (t + 5) :=
  c2_success_postcondition orDeliver "T2" "a" "b" 5 masterA [] env0 {}
    (by decide) (by with_unfolding_all decide)

/-- C3: evaluation of the code at the failing input.  In the driver's
configuration (NetworkSimulator('normal')), create-partition followed by
heal-partition between DAKAR and SAINT_LOUIS leaves the latency of BOTH
directions of the pair at infinity instead of the configured normal value
of 50 ms: simulate_partition writes infinity into the very table
heal_partition later reads back (self.latencies aliases
NetworkConfig.LATENCIES['normal']), and the reverse direction
(SAINT_LOUIS, DAKAR) is additionally only restored if it is a key of the
normal table, which it originally is not.  The reachability and health
parts of the claim do hold (last four conjuncts). -/
theorem c3_heal_partition_eval :
    alookup c3Healed.1.net.cur ("DAKAR", "SAINT_LOUIS") = some Latency.inf ∧
    alookup c3Healed.1.net.cur ("SAINT_LOUIS", "DAKAR") = some Latency.inf ∧
    alookup latenciesNormal ("DAKAR", "SAINT_LOUIS") = some (Latency.fin 50) ∧
    c3Healed.1.net.baseLatency "SAINT_LOUIS" "DAKAR" = Latency.inf ∧
    c3Healed.2.1.state = NodeState.healthy ∧
    c3Healed.2.2.state = NodeState.healthy ∧
    alookup c3Healed.2.1.canReach "SAINT_LOUIS" = some true ∧
    alookup c3Healed.2.2.canReach "DAKAR" = some true := by
  with_unfolding_all decide

theorem isHealthy_true_node (n : Node) (now : ℚ) (h : (n.isHealthy now).1 = true) :
    (n.isHealthy now).2 = n := by
  unfold Node.isHealthy at h ⊢
  by_cases hc : 3 < now - n.lastHeartbeat <;> simp [hc] at h ⊢

/-- C4 counterexample: the claim says a replica participant to which
delivery succeeded ALWAYS votes YES, but _can_node_prepare first runs
is_healthy on every node: a Degraded replica that receives the prepare
message votes NO. -/
theorem c4_counterexample :
    replDegraded.role ≠ NodeRole.master ∧
    (NetSt.sendMessage orDeliver env0 "DAKAR" replDegraded.id "prepare").1.isSome = true ∧
    (prepStep orDeliver "DAKAR" txAB replDegraded env0).vote = some "NO" := by
  with_unfolding_all decide

/-- C4 (amended): in the PREPARE step for a participant, the vote is NO
when delivery fails; given delivery, the vote is YES exactly when the
participant passes its is_healthy check AND, if it is the master, its
stored balance for the source user exists and is at least the amount
(replicas that pass the health check always vote YES — the health
condition is the amendment the counterexample forces). -/
theorem c4_prepare_vote_rule (or : Oracle) (masterId : String) (t : Transaction)
    (n : Node) (env : Env) :
    ((NetSt.sendMessage or env masterId n.id "prepare").1 = none →
      (prepStep or masterId t n env).vote = some "NO") ∧
    ((NetSt.sendMessage or env masterId n.id "prepare").1.isSome = true →
      ((prepStep or masterId t n env).vote = some "YES" ↔
        ((n.isHealthy (NetSt.sendMessage or env masterId n.id "prepare").2.clock).1
            = true ∧
         (n.role = NodeRole.master →
           ∃ b, alookup n.accounts t.from_user = some b ∧ t.amount ≤ b)))) := by
  unfold prepStep
  rcases hs : NetSt.sendMessage or env masterId n.id "prepare" with ⟨resp, env1⟩
  rcases resp with _ | u
  · refine ⟨fun _ => rfl, fun hc => ?_⟩
    simp at hc
  · refine ⟨fun hc => by simp at hc, fun _ => ?_⟩
    simp only
    rcases hh : n.isHealthy env1.clock with ⟨hb, n1⟩
    cases hb
    · -- unhealthy: canNodePrepare = (some false, n1)
      unfold canNodePrepare
      rw [hh]
      simp only
      constructor
      · intro hv
        simp at hv
      · intro ⟨hhl, _⟩
        simp at hhl
    · -- healthy: n1 = n
      have hn1 : n1 = n := by
        have := isHealthy_true_node n env1.clock (by rw [hh])
        rw [hh] at this
        exact this
      unfold canNodePrepare
      rw [hh]
      simp only
      rw [hn1]
      by_cases hm : n.isMaster
      · rcases hg : n.getBalance t.from_user false env1.clock with ⟨bq, n2⟩
        have hb : bq = alookup n.accounts t.from_user := by
          have := getBalance_fst n t.from_user env1.clock
          rw [hg] at this
          simpa using this
        rcases bq with _ | b
        · simp only [hm, if_true, hg]
          constructor
          · intro hv
            simp at hv
          · intro ⟨_, hex⟩
            rcases hex (by simpa [Node.isMaster] using hm) with ⟨b, hbe, _⟩
            rw [← hb] at hbe
            exact absurd hbe (by simp)
        · simp only [hm, if_true, hg]
          by_cases hle : t.amount ≤ b
          · simp only [hle, decide_eq_true_eq, if_true, reduceIte]
            constructor
            · intro _
              refine ⟨trivial, fun _ => ⟨b, hb.symm, hle⟩⟩
            · intro _
              simp [hle]
          · constructor
            · intro hv
              simp [hle] at hv
            · intro ⟨_, hex⟩
              rcases hex (by simpa [Node.isMaster] using hm) with ⟨b', hbe, hle'⟩
              rw [← hb] at hbe
              have : b' = b := by simpa using hbe.symm
              subst this
              exact absurd hle' hle
      · rw [Bool.not_eq_true] at hm
        simp only [hm, Bool.false_eq_true, if_false, reduceIte]
        constructor
        · intro _
          refine ⟨trivial, fun hmr => ?_⟩
          exact absurd hmr (by simpa [Node.isMaster] using hm)
        · intro _
          trivial

/-- Witness for C4 (amended) at a concrete input: the healthy master with
balance 10 and amount 10, delivered, votes YES. -/
theorem c4_prepare_vote_rule_witness :
    (prepStep orDeliver "DAKAR" txAB masterA env0).vote = some "YES" :=
  ((c4_prepare_vote_rule orDeliver "DAKAR" txAB masterA env0).2
      (by with_unfolding_all decide)).mpr
    ⟨by with_unfolding_all decide,
     fun _ => ⟨10, by with_unfolding_all decide, by with_unfolding_all decide⟩⟩

/-- C5 counterexample: the claim says the master's pre-commit balance is
used as the base ONLY when the replica has no stored value, but Python's
"or" also treats a stored 0.0 as missing: a replica storing balance 0 for
the source user ends at masterPreFrom - amount (100 - 10 = 90), not at
its own 0 - 10 = -10, although it DOES have a stored value. -/
theorem c5_counterexample :
    alookup replZeroBal.accounts "a" = some 0 ∧
    (NetSt.sendMessage orDeliver env0 "DAKAR" replZeroBal.id "commit").1.isSome = true ∧
    alookup ((commitReplicaStep orDeliver txAB "DAKAR" 100 50 replZeroBal
        env0).1).accounts "a" = some 90 ∧
    ¬ alookup ((commitReplicaStep orDeliver txAB "DAKAR" 100 50 replZeroBal
        env0).1).accounts "a" = some (0 - 10) := by
  with_unfolding_all decide

/-- C5 (amended): on delivery of the commit message to a replica (source
and destination users distinct), the replica's new balances are based on
its own stored values with the master's pre-commit balances as fallback,
where the fallback kicks in when the stored value is missing OR equals 0
(Python falsiness — the amendment the counterexample forces). -/
theorem c5_commit_replication_base (or : Oracle) (t : Transaction) (masterId : String)
    (fromBalance toBalance : ℚ) (n : Node) (env : Env)
    (hne : t.from_user ≠ t.to_user)
    (hdeliv : (NetSt.sendMessage or env masterId n.id "commit").1.isSome = true) :
    (∀ b, alookup n.accounts t.from_user = some b → b ≠ 0 →
      alookup ((commitReplicaStep or t masterId fromBalance toBalance n env).1).accounts
        t.from_user = some (b - t.amount)) ∧
    ((alookup n.accounts t.from_user = none ∨ alookup n.accounts t.from_user = some 0) →
      alookup ((commitReplicaStep or t masterId fromBalance toBalance n env).1).accounts
        t.from_user = some (fromBalance - t.amount)) ∧
    (∀ b, alookup n.accounts t.to_user = some b → b ≠ 0 →
      alookup ((commitReplicaStep or t masterId fromBalance toBalance n env).1).accounts
        t.to_user = some (b + t.amount)) ∧
    ((alookup n.accounts t.to_user = none ∨ alookup n.accounts t.to_user = some 0) →
      alookup ((commitReplicaStep or t masterId fromBalance toBalance n env).1).accounts
        t.to_user = some (toBalance + t.amount)) := by
  unfold commitReplicaStep
  rcases hs : NetSt.sendMessage or env masterId n.id "commit" with ⟨resp, env1⟩
  rcases resp with _ | u
  · rw [hs] at hdeliv
    simp at hdeliv
  · simp only
    rcases hg1 : n.getBalance t.from_user false env1.clock with ⟨fbq, n1⟩
    have hfb : fbq = alookup n.accounts t.from_user := by
      have := getBalance_fst n t.from_user env1.clock
      rw [hg1] at this
      simpa using this
    have hn1 : n1.accounts = n.accounts := by
      have := getBalance_accounts n t.from_user false env1.clock
      rw [hg1] at this
      simpa using this
    rcases hg2 : n1.getBalance t.to_user false env1.clock with ⟨tbq, n2⟩
    have htb : tbq = alookup n.accounts t.to_user := by
      have := getBalance_fst n1 t.to_user env1.clock
      rw [hg2] at this
      simp at this
      rw [this, hn1]
    have hn2 : n2.accounts = n.accounts := by
      have := getBalance_accounts n1 t.to_user false env1.clock
      rw [hg2] at this
      simp at this
      rw [this, hn1]
    simp only [hg1, hg2, Node.setBalance, Node.addTransaction, Node.invalidateCache]
    refine ⟨?_, ?_, ?_, ?_⟩
    · intro b hb hbne
      rw [alookup_alset_other _ t.to_user t.from_user _ (Ne.symm hne),
        alookup_alset_same]
      rw [hb] at hfb
      rw [hfb]
      simp [pyOrQ, hbne]
    · intro hcase
      rw [alookup_alset_other _ t.to_user t.from_user _ (Ne.symm hne),
        alookup_alset_same]
      rcases hcase with hc | hc <;> rw [hc] at hfb <;> rw [hfb] <;> simp [pyOrQ]
    · intro b hb hbne
      rw [alookup_alset_same]
      rw [hb] at htb
      rw [htb]
      simp [pyOrQ, hbne]
    · intro hcase
      rw [alookup_alset_same]
      rcases hcase with hc | hc <;> rw [hc] at htb <;> rw [htb] <;> simp [pyOrQ]

/-- Witness for C5 (amended) at a concrete input: a delivered commit to a
replica storing 10 for the source applies the delta to that stored
value. -/
theorem c5_commit_replication_base_witness :
    alookup ((commitReplicaStep orDeliver txAB "DAKAR" 100 50 replB env0).1).accounts
      "a" = some (10 - 10) :=
  (c5_commit_replication_base orDeliver txAB "DAKAR" 100 50 replB env0
      (by decide) (by with_unfolding_all decide)).1 10
    (by decide) (by decide)

/-- C6: for every strict-mode bill payment whose pre-check passes (the
paying user's master balance b covers the amount) and whose external
provider call fails (the success draw is at most 0.05), the debit is
rolled back — the master's balance for the user is again exactly b — the
record is marked Failed, and the result reports success = false. -/
theorem c6_provider_rollback (or : Oracle) (txId userId provider : String) (amount : ℚ)
    (master : Node) (replicas : List Node) (env : Env) (svc : PaymentSvc) (b : ℚ)
    (hb : alookup master.accounts userId = some b)
    (hge : amount ≤ b)
    (hfail : or.providerSucc env.provK ≤ 1/20) :
    (PaymentService.payBill or txId userId provider amount master replicas "CP" env
        svc).res.success = false ∧
    alookup (PaymentService.payBill or txId userId provider amount master replicas "CP"
        env svc).master.accounts userId = some b ∧
    (PaymentService.payBill or txId userId provider amount master replicas "CP" env
        svc).tx.status = TxStatus.failed := by
  unfold PaymentService.payBill
  rcases hg : master.getBalance userId false env.clock with ⟨bq, m1⟩
  have hbq : bq = some b := by
    have := getBalance_fst master userId env.clock
    rw [hg] at this
    simp at this
    rw [this, hb]
  have hm1 : m1.accounts = master.accounts := by
    have := getBalance_accounts master userId false env.clock
    rw [hg] at this
    simpa using this
  subst hbq
  have hlt : ¬ (b < amount) := not_lt.mpr hge
  simp only [hg, hlt, if_false, reduceIte]
  unfold payBillCpStrict
  rcases hg2 : m1.getBalance userId false env.clock with ⟨bq2, m2⟩
  have hbq2 : bq2 = some b := by
    have := getBalance_fst m1 userId env.clock
    rw [hg2] at this
    simp at this
    rw [this, hm1, hb]
  have hm2 : m2.accounts = m1.accounts := by
    have := getBalance_accounts m1 userId false env.clock
    rw [hg2] at this
    simpa using this
  subst hbq2
  have hsucc : ¬ ((1:ℚ)/20 < or.providerSucc env.provK) := not_lt.mpr hfail
  simp only [hg2, callProviderApi, hsucc, if_false, reduceIte, failPayment,
    Transaction.markFailed]
  refine ⟨trivial, ?_, trivial⟩
  simp only [Node.setBalance, Node.invalidateCache]
  rw [alookup_alset_same]

/-- Witness for C6 at a concrete input: payment of 4 by user "a" (balance
10) with a failing provider draw ends failed with the balance back at
10. -/
theorem c6_provider_rollback_witness :
    (PaymentService.payBill orProvFail "P1" "a" "SENELEC" 4 masterA [] "CP" env0
        {}).res.success = false ∧
    alookup (PaymentService.payBill orProvFail "P1" "a" "SENELEC" 4 masterA [] "CP"
        env0 {}).master.accounts "a" = some 10 ∧
    (PaymentService.payBill orProvFail "P1" "a" "SENELEC" 4 masterA [] "CP" env0
        {}).tx.status = TxStatus.failed :=
  c6_provider_rollback orProvFail "P1" "a" "SENELEC" 4 masterA [] env0 {} 10
    (by decide) (by decide) (by with_unfolding_all decide)

/-- C7: when the calling node's reachability check for the master fails,
each of the four StrictCP operations returns the immediate failure dict
(error "Service temporarily unavailable", reason "Cannot reach master
node", with "(network partition)" appended for transfers, strategy
CP_STRICT) and every piece of state — calling node, master, replicas,
environment (network, clock, logs) and service bookkeeping — is returned
unchanged: the underlying service is never invoked. -/
theorem c7_strictcp_partition_denial (or : Oracle) (txId fromU toU userId provider :
      String) (amount pamount : ℚ) (node master : Node) (replicas : List Node)
    (env : Env) (xsvc : TransferSvc) (bsvc : BalanceSvc) (hsvc : HistorySvc)
    (psvc : PaymentSvc)
    (h : node.canReachMaster master = false) :
    PureCP.executeTransfer or txId fromU toU amount node master replicas env xsvc =
      ⟨{ success := false, error := some "Service temporarily unavailable",
         reason := some "Cannot reach master node (network partition)",
         strategy := some "CP_STRICT" }, node, master, replicas, env, xsvc⟩ ∧
    PureCP.executeBalanceQuery or userId node master env bsvc =
      ⟨{ success := false, error := some "Service temporarily unavailable",
         reason := some "Cannot reach master node", strategy := some "CP_STRICT" },
       node, master, env, bsvc⟩ ∧
    PureCP.executeHistoryQuery userId node master env hsvc =
      ⟨{ success := false, error := some "Service temporarily unavailable",
         reason := some "Cannot reach master node", strategy := some "CP_STRICT" },
       node, master, env, hsvc⟩ ∧
    PureCP.executePayment or txId userId provider pamount node master replicas env psvc =
      ⟨{ success := false, error := some "Service temporarily unavailable",
         reason := some "Cannot reach master node", strategy := some "CP_STRICT" },
       node, master, replicas, env, psvc⟩ := by
  refine ⟨?_, ?_, ?_, ?_⟩ <;>
    simp [PureCP.executeTransfer, PureCP.executeBalanceQuery,
      PureCP.executeHistoryQuery, PureCP.executePayment, h]

/-- Witness for C7 at a concrete input: the isolated ZIGUINCHOR node
(reachability entry for DAKAR set to false) is denied on all four
operations with the state left untouched. -/
theorem c7_strictcp_partition_denial_witness :
    PureCP.executeTransfer orDeliver "T" "a" "b" 5 nodeIsolated masterA [] env0 {} =
      ⟨{ success := false, error := some "Service temporarily unavailable",
         reason := some "Cannot reach master node (network partition)",
         strategy := some "CP_STRICT" }, nodeIsolated, masterA, [], env0, {}⟩ ∧
    PureCP.executeBalanceQuery orDeliver "a" nodeIsolated masterA env0 {} =
      ⟨{ success := false, error := some "Service temporarily unavailable",
         reason := some "Cannot reach master node", strategy := some "CP_STRICT" },
       nodeIsolated, masterA, env0, {}⟩ ∧
    PureCP.executeHistoryQuery "a" nodeIsolated masterA env0 {} =
      ⟨{ success := false, error := some "Service temporarily unavailable",
         reason := some "Cannot reach master node", strategy := some "CP_STRICT" },
       nodeIsolated, masterA, env0, {}⟩ ∧
    PureCP.executePayment orDeliver "P" "a" "SENELEC" 5 nodeIsolated masterA [] env0 {} =
      ⟨{ success := false, error := some "Service temporarily unavailable",
         reason := some "Cannot reach master node", strategy := some "CP_STRICT" },
       nodeIsolated, masterA, [], env0, {}⟩ :=
  c7_strictcp_partition_denial orDeliver "T" "a" "b" "a" "SENELEC" 5 5 nodeIsolated
    masterA [] env0 {} {} {} {} (by decide)

/-- C8: in Adaptive's execute_payment, if the calling node cannot reach the
master, any amount strictly below 5000 yields a synthesized success with
status queued and partition_mode set, and any amount of at least 5000
yields a failure. -/
theorem c8_adaptive_payment_partition (or : Oracle) (txId userId provider : String)
    (amount : ℚ) (node master : Node) (replicas : List Node) (env : Env)
    (svc : PaymentSvc)
    (h : node.canReachMaster master = false) :
    (amount < 5000 →
      (Adaptive.executePayment or txId userId provider amount node master replicas env
          svc).res.success = true ∧
      (Adaptive.executePayment or txId userId provider amount node master replicas env
          svc).res.status = some "queued" ∧
      (Adaptive.executePayment or txId userId provider amount node master replicas env
          svc).res.partition_mode = some true) ∧
    (5000 ≤ amount →
      (Adaptive.executePayment or txId userId provider amount node master replicas env
          svc).res.success = false) := by
  constructor
  · intro hlt
    simp [Adaptive.executePayment, h, hlt]
  · intro hge
    have hnlt : ¬ (amount < 5000) := not_lt.mpr hge
    simp [Adaptive.executePayment, h, hnlt]

/-- Witness for C8 at concrete inputs: amount 2000 is queued, amount 6000
fails, both from the isolated node. -/
theorem c8_adaptive_payment_partition_witness :
    ((Adaptive.executePayment orDeliver "P2" "a" "SENELEC" 2000 nodeIsolated masterA []
        env0 {}).res.success = true ∧
     (Adaptive.executePayment orDeliver "P2" "a" "SENELEC" 2000 nodeIsolated masterA []
        env0 {}).res.status = some "queued" ∧
     (Adaptive.executePayment orDeliver "P2" "a" "SENELEC" 2000 nodeIsolated masterA []
        env0 {}).res.partition_mode = some true) ∧
    (Adaptive.executePayment orDeliver "P3" "a" "SENELEC" 6000 nodeIsolated masterA []
        env0 {}).res.success = false :=
  ⟨(c8_adaptive_payment_partition orDeliver "P2" "a" "SENELEC" 2000 nodeIsolated
      masterA [] env0 {} (by decide)).1 (by decide),
   (c8_adaptive_payment_partition orDeliver "P3" "a" "SENELEC" 6000 nodeIsolated
      masterA [] env0 {} (by decide)).2 (by decide)⟩

/-- C10: the partition-queued payment path is a pure frame: with the master
unreachable and amount below 5000, Adaptive's execute_payment returns the
synthesized queued dict and EVERY piece of state — calling node, master,
replicas (balances, transaction logs, caches), environment (network,
clock, counters) and the payment service counters — is returned exactly
as passed in; PaymentService.pay_bill is never invoked and no Transaction
record is even created. -/
theorem c10_queued_payment_frame (or : Oracle) (txId userId provider : String)
    (amount : ℚ) (node master : Node) (replicas : List Node) (env : Env)
    (svc : PaymentSvc)
    (hreach : node.canReachMaster master = false) (hlt : amount < 5000) :
    Adaptive.executePayment or txId userId provider amount node master replicas env svc =
      ⟨{ success := true,
         transaction_id := some ("queue_" ++ toString ⌊env.clock⌋),
         status := some "queued",
         message := some ("Paiement de " ++ toString amount ++
           " FCFA mis en file d'attente"),
         warning := some "Traitement différé jusqu'à reconnexion réseau",
         partition_mode := some true, strategy := some "ADAPTIVE_AP_QUEUE" },
       node, master, replicas, env, svc⟩ := by
  simp [Adaptive.executePayment, hreach, hlt]

/-- Witness for C10 at a concrete input. -/
theorem c10_queued_payment_frame_witness :
    Adaptive.executePayment orDeliver "P2" "a" "SENELEC" 2000 nodeIsolated masterA []
        env0 {} =
      ⟨{ success := true,
         transaction_id := some ("queue_" ++ toString ⌊env0.clock⌋),
         status := some "queued",
         message := some ("Paiement de " ++ toString (2000 : ℚ) ++
           " FCFA mis en file d'attente"),
         warning := some "Traitement différé jusqu'à reconnexion réseau",
         partition_mode := some true, strategy := some "ADAPTIVE_AP_QUEUE" },
       nodeIsolated, masterA, [], env0, {}⟩ :=
  c10_queued_payment_frame orDeliver "P2" "a" "SENELEC" 2000 nodeIsolated masterA []
    env0 {} (by decide) (by decide)

/-- C9: evaluation of the code at the failing input.  The fixture node
caches balance 500 for "u1" with expiry instant 10 while the
authoritative map says 700.  An AP balance query at t = 5 (before expiry)
returns the cached 500 tagged "cached" — that half of the claim holds.
An AP query at t = 20 (after expiry) discards the entry and returns the
authoritative 700, BUT tags it "cached" and leaves the cache EMPTY: it is
not re-populated with a new expiry, because Node.get_balance(from_cache=
True) itself falls back to the accounts map, so the service's miss branch
(the only place _set_cache is called) is unreachable whenever the account
exists.  The last conjunct shows the cache has no entry afterwards. -/
theorem c9_cache_ttl_eval :
    (BalanceService.getBalance orDeliver "u1" nodeStaleCache none "AP" envAt5
        {}).1.balance = some 500 ∧
    (BalanceService.getBalance orDeliver "u1" nodeStaleCache none "AP" envAt5
        {}).1.freshness = some "cached" ∧
    (BalanceService.getBalance orDeliver "u1" nodeStaleCache none "AP" envAt20
        {}).1.balance = some 700 ∧
    (BalanceService.getBalance orDeliver "u1" nodeStaleCache none "AP" envAt20
        {}).1.freshness = some "cached" ∧
    (BalanceService.getBalance orDeliver "u1" nodeStaleCache none "AP" envAt20
        {}).2.1.cache = [] := by
  set_option maxRecDepth 4000 in
  with_unfolding_all decide
